import Mathlib

/-!
Verification of the skybox cubemap module (`src/skybox.rs`).

The module manages a cubemap backdrop texture: `setup` issues the initial
asynchronous load, `cycle_cubemap_asset` is a timer-driven format swapper,
`asset_loaded` polls for load completion, reinterprets the flat image as a
six-layer cube texture, and attaches (or updates) the backdrop entity, and
`CubemapMaterial.as_bind_group` builds the GPU bind group with a
retry-next-cycle deferral when inputs are not yet resolved.

The embedding below is a shallow model of that code: opaque GPU/engine
handles become `Nat`, the asset and material stores become association
lists, a Rust panic becomes `Option.none` (resp. a dedicated `panicked`
constructor when the diagnostic payload matters), and `f32` time becomes
`ℚ`.  External collaborators (asset server, render device) are passed in
as function parameters.
-/

namespace Skybox

/-- Opaque engine handle (bevy `Handle<T>` / GPU object ids). -/
abbrev Handle := Nat

/-- Opaque GPU bind group produced by the render device. -/
abbrev BindGroup := Nat

/-- Opaque GPU bind group layout. -/
abbrev BindGroupLayout := Nat

/-- wgpu `TextureDimension` (the texture's storage dimensionality). -/
inductive TextureDimension where
  | D1
  | D2
  | D3
  deriving DecidableEq, Repr

/-- wgpu `TextureViewDimension`, restricted to the variants this module uses. -/
inductive TextureViewDimension where
  | D2
  | Cube
  deriving DecidableEq, Repr

/-- wgpu `Extent3d`: texture size, with array layers packed into the depth field. -/
structure Extent3d where
  width : Nat
  height : Nat
  depth_or_array_layers : Nat
  deriving DecidableEq, Repr

/-- Texture descriptor, restricted to the fields the modelled code reads or
writes (size and dimension; label, mips, format and usage are never touched
by the operations under verification). -/
structure TextureDescriptor where
  size : Extent3d
  dimension : TextureDimension
  deriving DecidableEq, Repr

/-- wgpu `TextureDescriptor::array_layer_count`: D2 textures store their
array layers in `size.depth_or_array_layers`; D1/D3 always report 1. -/
def TextureDescriptor.array_layer_count (d : TextureDescriptor) : Nat :=
  match d.dimension with
  | TextureDimension.D1 => 1
  | TextureDimension.D2 => d.size.depth_or_array_layers
  | TextureDimension.D3 => 1

/-- Texture view descriptor, restricted to the one field the code sets
(`dimension`); the remaining fields are left at `..default()` by the code. -/
structure TextureViewDescriptor where
  dimension : Option TextureViewDimension
  deriving DecidableEq, Repr

/-- bevy `Image`, restricted to the fields `asset_loaded` reads or writes. -/
structure Image where
  texture_descriptor : TextureDescriptor
  texture_view_descriptor : Option TextureViewDescriptor
  deriving DecidableEq, Repr

/-- bevy 0.9 `Image::reinterpret_stacked_2d_as_array` (library function called
by `asset_loaded` at src/skybox.rs:116).  It asserts that the texture is 2D,
has a single layer, and that `height % layers == 0` (a remainder by zero also
panics in Rust), then reinterprets the size as `layers` stacked slices.
`none` models the panic of a failed assertion. -/
def Image.reinterpret_stacked_2d_as_array (image : Image) (layers : Nat) : Option Image :=
  if image.texture_descriptor.dimension = TextureDimension.D2
      ∧ image.texture_descriptor.size.depth_or_array_layers = 1
      ∧ layers ≠ 0
      ∧ image.texture_descriptor.size.height % layers = 0 then
    some { image with
      texture_descriptor := { image.texture_descriptor with
        size := { width := image.texture_descriptor.size.width,
                  height := image.texture_descriptor.size.height / layers,
                  depth_or_array_layers := layers } } }
  else
    none

/-- Texture reinterpretation step of `asset_loaded` (src/skybox.rs:115-123):
when the image still has exactly one array layer, reinterpret it as
`height / width` layers (integer division; a zero width panics in Rust) and
set the view descriptor to a cube view; otherwise leave the image alone.
`none` models a panic. -/
def reinterpret_step (image : Image) : Option Image :=
  if image.texture_descriptor.array_layer_count = 1 then
    if image.texture_descriptor.size.width = 0 then
      none
    else
      match image.reinterpret_stacked_2d_as_array
          (image.texture_descriptor.size.height / image.texture_descriptor.size.width) with
      | none => none
      | some img =>
        some { img with
          texture_view_descriptor := some { dimension := some TextureViewDimension.Cube } }
  else
    some image

/-- bevy `CompressedImageFormats` capability bitset (the three real flags). -/
structure CompressedImageFormats where
  astc_ldr : Bool
  bc : Bool
  etc2 : Bool
  deriving DecidableEq, Repr

/-- Bitflags `contains`: every flag set in `b` is also set in `a`. -/
def CompressedImageFormats.contains (a b : CompressedImageFormats) : Bool :=
  (!b.astc_ldr || a.astc_ldr) && (!b.bc || a.bc) && (!b.etc2 || a.etc2)

/-- The ETC2 format flag. -/
def ETC2 : CompressedImageFormats :=
  { astc_ldr := false, bc := false, etc2 := true }

/-- Compiled constant `CUBEMAP` (src/skybox.rs:36-39): default asset path and
its compressed format. -/
def CUBEMAP : String × CompressedImageFormats :=
  ("textures/Ryfjallet_cubemap_etc2.ktx2", ETC2)

/-- Compiled constant `CUBEMAP_SWAP_DELAY` (src/skybox.rs:62). -/
def CUBEMAP_SWAP_DELAY : ℚ := 3

/-- The `Cubemap` resource (src/skybox.rs:41-46). -/
structure Cubemap where
  is_loaded : Bool
  index : Nat
  image_handle : Handle
  deriving DecidableEq, Repr

/-- `setup` (src/skybox.rs:48-60): request the default asset and install the
`Cubemap` resource with the loaded flag clear.  The asset server's `load` is
an external collaborator passed as a function. -/
def setup (load : String → Handle) : Cubemap :=
  { is_loaded := false, index := 0, image_handle := load CUBEMAP.1 }

/-- Candidate index computation of `cycle_cubemap_asset` (src/skybox.rs:83):
`let mut new_index = cubemap.index;` — the candidate is never changed
afterwards. -/
def compute_new_index (cubemap : Cubemap) : Nat :=
  cubemap.index

/-- Outcome of one invocation of `cycle_cubemap_asset`: a normal return with
the updated timer, the updated `Cubemap` resource and the list of asset paths
for which a load was requested, or a process panic carrying the `CUBEMAP`
pair printed by the diagnostic. -/
inductive CycleResult where
  | ret (next_swap : ℚ) (cubemap : Cubemap) (requests : List String)
  | panicked (diagnostic : String × CompressedImageFormats)
  deriving DecidableEq

/-- `cycle_cubemap_asset` (src/skybox.rs:64-97).  `now` is
`time.elapsed_seconds()`, `next_swap` the `Local<f32>` timer, `load` the
asset server and `supported_compressed_formats` the set computed from the
device features.  A zero timer initializes and returns; an unexpired timer
returns; otherwise the timer advances by one interval, an unsupported
`CUBEMAP` format panics, an unchanged candidate index returns without a load
request, and a changed index would install a fresh handle with the loaded
flag clear. -/
def cycle_cubemap_asset (now next_swap : ℚ) (cubemap : Cubemap)
    (load : String → Handle)
    (supported_compressed_formats : CompressedImageFormats) : CycleResult :=
  if next_swap = 0 then
    CycleResult.ret (now + CUBEMAP_SWAP_DELAY) cubemap []
  else if now < next_swap then
    CycleResult.ret next_swap cubemap []
  else
    if supported_compressed_formats.contains CUBEMAP.2 = false then
      CycleResult.panicked CUBEMAP
    else if compute_new_index cubemap = cubemap.index then
      CycleResult.ret (next_swap + CUBEMAP_SWAP_DELAY) cubemap []
    else
      CycleResult.ret (next_swap + CUBEMAP_SWAP_DELAY)
        { is_loaded := false, index := compute_new_index cubemap,
          image_handle := load CUBEMAP.1 }
        [CUBEMAP.1]

/-- GPU-side image in the render asset cache (`RenderAssets<Image>` entry),
restricted to the two fields `as_bind_group` reads; the view and sampler are
opaque GPU object ids. -/
structure GpuImage where
  texture_view : Nat
  sampler : Nat
  deriving DecidableEq, Repr

/-- wgpu `BindingResource` (borrowed form), restricted to the variants used. -/
inductive BindingResource where
  | textureView (v : Nat)
  | sampler (s : Nat)
  deriving DecidableEq, Repr

/-- wgpu `BindGroupEntry`. -/
structure BindGroupEntry where
  binding : Nat
  resource : BindingResource
  deriving DecidableEq, Repr

/-- wgpu `BindGroupDescriptor`, as built by `as_bind_group`. -/
structure BindGroupDescriptor where
  entries : List BindGroupEntry
  label : Option String
  layout : BindGroupLayout
  deriving DecidableEq, Repr

/-- bevy `OwnedBindingResource`, restricted to the variants used. -/
inductive OwnedBindingResource where
  | textureView (v : Nat)
  | sampler (s : Nat)
  deriving DecidableEq, Repr

/-- `CubemapMaterial` (src/skybox.rs:158-162). -/
structure CubemapMaterial where
  base_color_texture : Option Handle
  deriving DecidableEq, Repr

/-- bevy `PreparedBindGroup` with `Data = CubemapMaterial`. -/
structure PreparedBindGroup where
  bind_group : BindGroup
  bindings : List OwnedBindingResource
  data : CubemapMaterial
  deriving DecidableEq, Repr

/-- bevy `AsBindGroupError`: the deferred retry-next-cycle signal. -/
inductive AsBindGroupError where
  | RetryNextUpdate
  deriving DecidableEq, Repr

/-- `CubemapMaterial::as_bind_group` (src/skybox.rs:188-227).  The render
device's `create_bind_group` and the render asset cache `images` are external
collaborators passed as functions.  An unset texture reference or an image
missing from the cache yields the deferred `RetryNextUpdate` error via
`ok_or(...)?`; otherwise a bind group is created from the image's view and
sampler at bindings 0 and 1. -/
def CubemapMaterial.as_bind_group (self : CubemapMaterial)
    (layout : BindGroupLayout)
    (create_bind_group : BindGroupDescriptor → BindGroup)
    (images : Handle → Option GpuImage) :
    Except AsBindGroupError PreparedBindGroup :=
  match self.base_color_texture with
  | none => Except.error AsBindGroupError.RetryNextUpdate
  | some base_color_texture =>
    match images base_color_texture with
    | none => Except.error AsBindGroupError.RetryNextUpdate
    | some image =>
      let bind_group := create_bind_group
        { entries := [
            { binding := 0, resource := BindingResource.textureView image.texture_view },
            { binding := 1, resource := BindingResource.sampler image.sampler } ],
          label := some "cubemap_texture_material_bind_group",
          layout := layout }
      Except.ok
        { bind_group := bind_group,
          bindings := [
            OwnedBindingResource.textureView image.texture_view,
            OwnedBindingResource.sampler image.sampler ],
          data := { base_color_texture := none } }

/-- Assets store for `CubemapMaterial` (`Assets<CubemapMaterial>`): an
association list from handles, plus a fresh-handle counter for `add`. -/
structure MaterialStore where
  mats : List (Nat × CubemapMaterial)
  next : Nat
  deriving DecidableEq, Repr

/-- Association-list lookup for the material store (`Assets::get`). -/
def lookupMat : List (Nat × CubemapMaterial) → Nat → Option CubemapMaterial
  | [], _ => none
  | a :: as, h => if a.1 = h then some a.2 else lookupMat as h

/-- Does the material store contain a handle (`Assets::get_mut` succeeding)? -/
def hasKey : List (Nat × CubemapMaterial) → Nat → Bool
  | [], _ => false
  | a :: as, h => if a.1 = h then true else hasKey as h

/-- In-place update through `Assets::get_mut`: set the base color texture of
the material stored under handle `h`. -/
def updateEntry : List (Nat × CubemapMaterial) → Nat → Handle → List (Nat × CubemapMaterial)
  | [], _, _ => []
  | a :: as, h, img =>
    (if a.1 = h then (a.1, CubemapMaterial.mk (some img)) else a) :: updateEntry as h img

/-- The update loop of `asset_loaded` (src/skybox.rs:126-132): for each
entity's material handle, if the store resolves it, rewrite its texture
reference in place and record that an update happened. -/
def update_materials (img : Handle) :
    List Nat → List (Nat × CubemapMaterial) → List (Nat × CubemapMaterial) × Bool
  | [], mats => (mats, false)
  | c :: cs, mats =>
    if hasKey mats c then
      ((update_materials img cs (updateEntry mats c img)).1, true)
    else
      update_materials img cs mats

/-- Association-list lookup for `Assets<Image>` (`Assets::get` / `get_mut`). -/
def lookupImage : List (Handle × Image) → Handle → Option Image
  | [], _ => none
  | a :: as, h => if a.1 = h then some a.2 else lookupImage as h

/-- Write back a mutated image under its handle. -/
def updateImage : List (Handle × Image) → Handle → Image → List (Handle × Image)
  | [], _, _ => []
  | a :: as, h, img => (if a.1 = h then (a.1, img) else a) :: updateImage as h img

/-- Insert (or replace) an image under a handle: models the external asset
subsystem committing a completed load into `Assets<Image>`. -/
def insertImage (images : List (Handle × Image)) (h : Handle) (img : Image) :
    List (Handle × Image) :=
  match lookupImage images h with
  | some _ => updateImage images h img
  | none => images ++ [(h, img)]

/-- bevy `LoadState` as reported by `AssetServer::get_load_state`. -/
inductive LoadState where
  | NotLoaded
  | Loading
  | Loaded
  | Failed
  | Unloaded
  deriving DecidableEq, Repr

/-- The world state touched by `asset_loaded`: the image store, the backdrop
entities (each represented by its `Handle<CubemapMaterial>` component, the
`cubes` query), the material store, and the `Cubemap` resource. -/
structure World where
  images : List (Handle × Image)
  entities : List Nat
  materials : MaterialStore
  cubemap : Cubemap
  deriving DecidableEq, Repr

/-- `asset_loaded` (src/skybox.rs:99-145).  `load_state` is the asset
server's report for the tracked handle.  When the loaded flag is clear and
the load completed: fetch the image with an unchecked `unwrap` (`none`
models the panic when it is absent), run the reinterpretation step (its
panic propagates), rewrite every resolvable backdrop material's texture
reference in place, spawn a fresh backdrop entity when none was updated, and
finally set the loaded flag.  Otherwise the world is unchanged. -/
def asset_loaded (load_state : LoadState) (w : World) : Option World :=
  if w.cubemap.is_loaded = false ∧ load_state = LoadState.Loaded then
    match lookupImage w.images w.cubemap.image_handle with
    | none => none
    | some image =>
      match reinterpret_step image with
      | none => none
      | some image2 =>
        let images2 := updateImage w.images w.cubemap.image_handle image2
        let step := update_materials w.cubemap.image_handle w.entities w.materials.mats
        let newMat : CubemapMaterial := { base_color_texture := some w.cubemap.image_handle }
        if step.2 then
          some { images := images2,
                 entities := w.entities,
                 materials := { mats := step.1, next := w.materials.next },
                 cubemap := { w.cubemap with is_loaded := true } }
        else
          some { images := images2,
                 entities := w.entities ++ [w.materials.next],
                 materials := { mats := step.1 ++ [(w.materials.next, newMat)],
                                next := w.materials.next + 1 },
                 cubemap := { w.cubemap with is_loaded := true } }
  else
    some w

/-- Whole-system state: the swap timer (`Local<f32>` of
`cycle_cubemap_asset`) and the world. -/
structure SysState where
  next_swap : ℚ
  world : World
  deriving DecidableEq, Repr

/-- One scheduler-tick input to the system: a `cycle_cubemap_asset` run with
the current time, device capability set and asset server; an `asset_loaded`
run with the asset server's load-state query; or the external asset
subsystem committing a finished load into the image store. -/
inductive SysInput where
  | cycleTick (now : ℚ) (supported : CompressedImageFormats) (load : String → Handle)
  | pollTick (query_load_state : Handle → LoadState)
  | deliver (h : Handle) (img : Image)

/-- One step of the system; `none` models a process panic. -/
def machineStep (s : SysState) : SysInput → Option SysState
  | SysInput.cycleTick now supported load =>
    match cycle_cubemap_asset now s.next_swap s.world.cubemap load supported with
    | CycleResult.ret ns c _ =>
      some { next_swap := ns, world := { s.world with cubemap := c } }
    | CycleResult.panicked _ => none
  | SysInput.pollTick query_load_state =>
    (asset_loaded (query_load_state s.world.cubemap.image_handle) s.world).map
      (fun w => { s with world := w })
  | SysInput.deliver h img =>
    some { s with world := { s.world with images := insertImage s.world.images h img } }

/-- Initial system state right after the startup system `setup` ran: timer
zero, empty stores, no backdrop entity, `Cubemap` resource installed with
the loaded flag clear. -/
def initState (load : String → Handle) : SysState :=
  { next_swap := 0,
    world := { images := [], entities := [], materials := { mats := [], next := 0 },
               cubemap := setup load } }

/-- Reachability along `machineStep` (reflexive-transitive). -/
inductive ReachableFrom : SysState → SysState → Prop
  | refl (s : SysState) : ReachableFrom s s
  | tail {s t u : SysState} (a : SysInput) :
      ReachableFrom s t → machineStep t a = some u → ReachableFrom s u

/-- C1: the claimed malformed-asset rejection is absent from the code.  For a
4×10 single-layer image — height 10 is not an integer multiple of width 4 —
the reinterpretation step of `asset_loaded` does not fail: it silently
succeeds, reinterpreting the image as `10 / 4 = 2` array layers of height 5
and marking a cube view, instead of rejecting the reinterpretation with a
malformed-asset error. -/
theorem c1_reinterpret_malformed_silently_succeeds :
    10 % 4 ≠ 0 ∧
    reinterpret_step
        { texture_descriptor :=
            { size := { width := 4, height := 10, depth_or_array_layers := 1 },
              dimension := TextureDimension.D2 },
          texture_view_descriptor := none } =
      some
        { texture_descriptor :=
            { size := { width := 4, height := 5, depth_or_array_layers := 2 },
              dimension := TextureDimension.D2 },
          texture_view_descriptor :=
            some { dimension := some TextureViewDimension.Cube } } := by
  decide

/-- C8: idempotence of the reinterpretation step — when the image already has
more than one array layer it is returned unchanged (layer count and view
descriptor included). -/
theorem c8_reinterpret_step_noop_when_multilayer (image : Image)
    (h : 1 < image.texture_descriptor.array_layer_count) :
    reinterpret_step image = some image := by
  have hne : ¬ image.texture_descriptor.array_layer_count = 1 := by omega
  simp [reinterpret_step, hne]

/-- Witness for C8 on a concrete six-layer image. -/
theorem c8_reinterpret_step_noop_witness :
    reinterpret_step
        { texture_descriptor :=
            { size := { width := 2, height := 2, depth_or_array_layers := 6 },
              dimension := TextureDimension.D2 },
          texture_view_descriptor := none } =
      some
        { texture_descriptor :=
            { size := { width := 2, height := 2, depth_or_array_layers := 6 },
              dimension := TextureDimension.D2 },
          texture_view_descriptor := none } :=
  c8_reinterpret_step_noop_when_multilayer _ (by decide)

/-- C2: when the swap timer has fired (nonzero timer that is due) and the
requested `CUBEMAP` format is not contained in the device's supported set,
`cycle_cubemap_asset` panics with a diagnostic carrying the `CUBEMAP` pair
(path and format); it does not return into the state machine. -/
theorem c2_cycle_unsupported_format_panics (now next_swap : ℚ)
    (cubemap : Cubemap) (load : String → Handle)
    (supported : CompressedImageFormats)
    (h0 : next_swap ≠ 0) (h1 : next_swap ≤ now)
    (h2 : supported.contains CUBEMAP.2 = false) :
    cycle_cubemap_asset now next_swap cubemap load supported =
      CycleResult.panicked CUBEMAP := by
  unfold cycle_cubemap_asset
  rw [if_neg h0, if_neg (not_lt.mpr h1), if_pos h2]

/-- Witness for C2: device supporting no compressed format at a due timer. -/
theorem c2_cycle_unsupported_format_panics_witness :
    cycle_cubemap_asset 3 3 { is_loaded := true, index := 0, image_handle := 0 }
        (fun _ => 0) { astc_ldr := false, bc := false, etc2 := false } =
      CycleResult.panicked CUBEMAP :=
  c2_cycle_unsupported_format_panics 3 3 _ _ _ (by norm_num) (by norm_num) (by decide)

/-- C3: when the swap timer has fired and the configured `CUBEMAP` format is
supported, the computed candidate index equals the active index, and the
swap is a no-op: the `Cubemap` resource (index, image handle, loaded flag)
is returned unchanged, no load request is issued, and the timer advances by
one `CUBEMAP_SWAP_DELAY` interval. -/
theorem c3_cycle_supported_swap_noop (now next_swap : ℚ)
    (cubemap : Cubemap) (load : String → Handle)
    (supported : CompressedImageFormats)
    (h0 : next_swap ≠ 0) (h1 : next_swap ≤ now)
    (h2 : supported.contains CUBEMAP.2 = true) :
    compute_new_index cubemap = cubemap.index ∧
    cycle_cubemap_asset now next_swap cubemap load supported =
      CycleResult.ret (next_swap + CUBEMAP_SWAP_DELAY) cubemap [] := by
  refine ⟨rfl, ?_⟩
  unfold cycle_cubemap_asset
  rw [if_neg h0, if_neg (not_lt.mpr h1), if_neg (by simp [h2]),
    if_pos (show compute_new_index cubemap = cubemap.index from rfl)]

/-- Witness for C3: an ETC2-capable device at a due timer. -/
theorem c3_cycle_supported_swap_noop_witness :
    compute_new_index { is_loaded := true, index := 0, image_handle := 5 } =
      ({ is_loaded := true, index := 0, image_handle := 5 } : Cubemap).index ∧
    cycle_cubemap_asset 7 4 { is_loaded := true, index := 0, image_handle := 5 }
        (fun _ => 9) { astc_ldr := false, bc := false, etc2 := true } =
      CycleResult.ret (4 + CUBEMAP_SWAP_DELAY)
        { is_loaded := true, index := 0, image_handle := 5 } [] :=
  c3_cycle_supported_swap_noop 7 4 _ _ _ (by norm_num) (by norm_num) (by decide)

/-- C4: bind-group preparation defers instead of failing — with an unset
texture reference, or a set reference whose image is not in the device-side
cache, `as_bind_group` returns the `RetryNextUpdate` signal; with a resolved
image it returns a prepared bind group.  The model is a total function, so
no panic is possible. -/
theorem c4_as_bind_group_defers_or_prepares (self : CubemapMaterial)
    (layout : BindGroupLayout)
    (create_bind_group : BindGroupDescriptor → BindGroup)
    (images : Handle → Option GpuImage) :
    (self.base_color_texture = none →
      self.as_bind_group layout create_bind_group images =
        Except.error AsBindGroupError.RetryNextUpdate) ∧
    (∀ h, self.base_color_texture = some h → images h = none →
      self.as_bind_group layout create_bind_group images =
        Except.error AsBindGroupError.RetryNextUpdate) ∧
    (∀ h g, self.base_color_texture = some h → images h = some g →
      ∃ p, self.as_bind_group layout create_bind_group images = Except.ok p) := by
  refine ⟨fun hn => ?_, fun h hs hi => ?_, fun h g hs hi => ?_⟩
  · simp [CubemapMaterial.as_bind_group, hn]
  · simp [CubemapMaterial.as_bind_group, hs, hi]
  · unfold CubemapMaterial.as_bind_group
    rw [hs]
    simp only [hi]
    exact ⟨_, rfl⟩

/-- Witness for C4: a material with an unset texture reference defers. -/
theorem c4_as_bind_group_defers_witness :
    CubemapMaterial.as_bind_group { base_color_texture := none } 0
        (fun _ => 0) (fun _ => none) =
      Except.error AsBindGroupError.RetryNextUpdate :=
  (c4_as_bind_group_defers_or_prepares { base_color_texture := none } 0
    (fun _ => 0) (fun _ => none)).1 rfl

/-- C9: bind-group preparation is repeatable — two successive calls on the
same material, layout, device and resolved cache return equal results, and
that result is the prepared bind group whose descriptor holds exactly the
two entries (binding 0, the image's texture view; binding 1, its sampler)
in that order, matching the owned bindings list. -/
theorem c9_as_bind_group_repeatable (self : CubemapMaterial)
    (layout : BindGroupLayout)
    (create_bind_group : BindGroupDescriptor → BindGroup)
    (images : Handle → Option GpuImage) (h : Handle) (g : GpuImage)
    (hs : self.base_color_texture = some h) (hi : images h = some g) :
    self.as_bind_group layout create_bind_group images =
      self.as_bind_group layout create_bind_group images ∧
    self.as_bind_group layout create_bind_group images =
      Except.ok
        { bind_group := create_bind_group
            { entries := [
                { binding := 0,
                  resource := BindingResource.textureView g.texture_view },
                { binding := 1,
                  resource := BindingResource.sampler g.sampler } ],
              label := some "cubemap_texture_material_bind_group",
              layout := layout },
          bindings := [
            OwnedBindingResource.textureView g.texture_view,
            OwnedBindingResource.sampler g.sampler ],
          data := { base_color_texture := none } } :=
  And.intro rfl (by
    unfold CubemapMaterial.as_bind_group
    rw [hs]
    simp only [hi])

/-- Witness for C9 on a concrete resolved material. -/
theorem c9_as_bind_group_repeatable_witness :
    CubemapMaterial.as_bind_group { base_color_texture := some 5 } 3
        (fun _ => 42) (fun _ => some { texture_view := 11, sampler := 22 }) =
      CubemapMaterial.as_bind_group { base_color_texture := some 5 } 3
        (fun _ => 42) (fun _ => some { texture_view := 11, sampler := 22 }) ∧
    CubemapMaterial.as_bind_group { base_color_texture := some 5 } 3
        (fun _ => 42) (fun _ => some { texture_view := 11, sampler := 22 }) =
      Except.ok
        { bind_group := 42,
          bindings := [
            OwnedBindingResource.textureView 11,
            OwnedBindingResource.sampler 22 ],
          data := { base_color_texture := none } } :=
  c9_as_bind_group_repeatable { base_color_texture := some 5 } 3
    (fun _ => 42) (fun _ => some { texture_view := 11, sampler := 22 })
    5 { texture_view := 11, sampler := 22 } rfl rfl

/-- C5: for a single-layer 2D image whose height is exactly six times its
positive width, the reinterpretation step succeeds and yields a texture with
exactly 6 array layers and a cube-shaped view dimension. -/
theorem c5_reinterpret_six_w_strip (image : Image) (w : Nat) (hw : 0 < w)
    (hdim : image.texture_descriptor.dimension = TextureDimension.D2)
    (hdepth : image.texture_descriptor.size.depth_or_array_layers = 1)
    (hwidth : image.texture_descriptor.size.width = w)
    (hheight : image.texture_descriptor.size.height = 6 * w) :
    ∃ img, reinterpret_step image = some img ∧
      img.texture_descriptor.array_layer_count = 6 ∧
      img.texture_view_descriptor =
        some { dimension := some TextureViewDimension.Cube } := by
  have hcount : image.texture_descriptor.array_layer_count = 1 := by
    simp [TextureDescriptor.array_layer_count, hdim, hdepth]
  have hw0 : ¬ image.texture_descriptor.size.width = 0 := by
    rw [hwidth]; omega
  have hdiv : image.texture_descriptor.size.height /
      image.texture_descriptor.size.width = 6 := by
    rw [hheight, hwidth]
    exact Nat.mul_div_cancel 6 hw
  have hmod : image.texture_descriptor.size.height % 6 = 0 := by
    rw [hheight]
    exact Nat.mul_mod_right 6 w
  have hstep : reinterpret_step image = some
      { texture_descriptor :=
          { size := { width := image.texture_descriptor.size.width,
                      height := image.texture_descriptor.size.height / 6,
                      depth_or_array_layers := 6 },
            dimension := image.texture_descriptor.dimension },
        texture_view_descriptor :=
          some { dimension := some TextureViewDimension.Cube } } := by
    unfold reinterpret_step
    rw [if_pos hcount, if_neg hw0, hdiv]
    unfold Image.reinterpret_stacked_2d_as_array
    rw [if_pos ⟨hdim, hdepth, by omega, hmod⟩]
  exact ⟨_, hstep, by simp [TextureDescriptor.array_layer_count, hdim], rfl⟩

/-- Witness for C5 on a concrete 2×12 single-layer strip. -/
theorem c5_reinterpret_six_w_strip_witness :
    ∃ img, reinterpret_step
        { texture_descriptor :=
            { size := { width := 2, height := 12, depth_or_array_layers := 1 },
              dimension := TextureDimension.D2 },
          texture_view_descriptor := none } = some img ∧
      img.texture_descriptor.array_layer_count = 6 ∧
      img.texture_view_descriptor =
        some { dimension := some TextureViewDimension.Cube } :=
  c5_reinterpret_six_w_strip _ 2 (by decide) rfl rfl rfl rfl

/-- C10: in the completion poll, when the loaded flag is clear and the asset
server reports the tracked handle as loaded but the image is absent from the
image store, `asset_loaded` panics (the unchecked `unwrap`) instead of
deferring or erroring. -/
theorem c10_asset_loaded_unwrap_panics (w : World)
    (hnl : w.cubemap.is_loaded = false)
    (habs : lookupImage w.images w.cubemap.image_handle = none) :
    asset_loaded LoadState.Loaded w = none := by
  simp [asset_loaded, hnl, habs]

/-- Witness for C10: an empty image store with a pending handle. -/
theorem c10_asset_loaded_unwrap_panics_witness :
    asset_loaded LoadState.Loaded
      { images := [], entities := [], materials := { mats := [], next := 0 },
        cubemap := { is_loaded := false, index := 0, image_handle := 7 } } = none :=
  c10_asset_loaded_unwrap_panics _ rfl rfl

/-- Lookup after an in-place update: when the store contains the handle, the
updated store resolves it to the rewritten material. -/
theorem lookupMat_updateEntry (mats : List (Nat × CubemapMaterial)) (e : Nat)
    (img : Handle) (hk : hasKey mats e = true) :
    lookupMat (updateEntry mats e img) e =
      some { base_color_texture := some img } := by
  induction mats with
  | nil => simp [hasKey] at hk
  | cons a as ih =>
    by_cases hke : a.1 = e
    · simp [updateEntry, lookupMat, hke]
    · have hk2 : hasKey as e = true := by
        simpa [hasKey, hke] using hk
      simpa [updateEntry, lookupMat, hke] using ih hk2

/-- C6: scene attachment maintains exactly one backdrop entity.  On a first
successful load (no backdrop entity, empty material store) `asset_loaded`
spawns exactly one entity whose material references the cubemap image; on a
subsequent successful load with one existing backdrop entity whose material
resolves, the entity list is unchanged (still exactly one, no duplicate) and
that material's texture reference is rewritten in place to the cubemap
image. -/
theorem c6_exactly_one_backdrop_entity (w : World) (image image2 : Image)
    (hnl : w.cubemap.is_loaded = false)
    (himg : lookupImage w.images w.cubemap.image_handle = some image)
    (hok : reinterpret_step image = some image2) :
    (w.entities = [] → w.materials.mats = [] →
      ∃ w2, asset_loaded LoadState.Loaded w = some w2 ∧
        w2.entities = [w.materials.next] ∧
        lookupMat w2.materials.mats w.materials.next =
          some { base_color_texture := some w.cubemap.image_handle }) ∧
    (∀ e, w.entities = [e] → hasKey w.materials.mats e = true →
      ∃ w2, asset_loaded LoadState.Loaded w = some w2 ∧
        w2.entities = [e] ∧
        lookupMat w2.materials.mats e =
          some { base_color_texture := some w.cubemap.image_handle }) := by
  constructor
  · intro he hm
    have hred : asset_loaded LoadState.Loaded w = some
        (World.mk (updateImage w.images w.cubemap.image_handle image2)
          (w.entities ++ [w.materials.next])
          (MaterialStore.mk
            [(w.materials.next, CubemapMaterial.mk (some w.cubemap.image_handle))]
            (w.materials.next + 1))
          { w.cubemap with is_loaded := true }) := by
      simp [asset_loaded, hnl, himg, hok, he, hm, update_materials]
    exact ⟨_, hred, by simp [he], by simp [lookupMat]⟩
  · intro e he hk
    have hred : asset_loaded LoadState.Loaded w = some
        (World.mk (updateImage w.images w.cubemap.image_handle image2)
          w.entities
          (MaterialStore.mk (updateEntry w.materials.mats e w.cubemap.image_handle)
            w.materials.next)
          { w.cubemap with is_loaded := true }) := by
      simp [asset_loaded, hnl, himg, hok, he, hk, update_materials]
    exact ⟨_, hred, he, lookupMat_updateEntry _ _ _ hk⟩

/-- Concrete 2×12 single-layer vertical-strip image (six square 2×2 faces). -/
def stripImage : Image :=
  { texture_descriptor :=
      { size := { width := 2, height := 12, depth_or_array_layers := 1 },
        dimension := TextureDimension.D2 },
    texture_view_descriptor := none }

/-- The strip image after reinterpretation: six layers and a cube view. -/
def cubeImage : Image :=
  { texture_descriptor :=
      { size := { width := 2, height := 2, depth_or_array_layers := 6 },
        dimension := TextureDimension.D2 },
    texture_view_descriptor := some { dimension := some TextureViewDimension.Cube } }

/-- World at a first load completion: the strip image delivered under
handle 7, no entities, empty material store, loaded flag clear. -/
def firstLoadWorld : World :=
  { images := [(7, stripImage)], entities := [],
    materials := { mats := [], next := 0 },
    cubemap := { is_loaded := false, index := 0, image_handle := 7 } }

/-- Witness for C6 on the concrete first load. -/
theorem c6_exactly_one_backdrop_entity_witness :
    ∃ w2, asset_loaded LoadState.Loaded firstLoadWorld = some w2 ∧
      w2.entities = [firstLoadWorld.materials.next] ∧
      lookupMat w2.materials.mats firstLoadWorld.materials.next =
        some { base_color_texture := some firstLoadWorld.cubemap.image_handle } :=
  (c6_exactly_one_backdrop_entity firstLoadWorld stripImage cubeImage
    rfl (by decide) (by decide)).1 rfl rfl

/-- Shape of a non-panicking `cycle_cubemap_asset` return: the `Cubemap`
resource is either unchanged or freshly installed with the loaded flag
clear. -/
theorem cycle_ret_cases {now ns : ℚ} {cubemap : Cubemap} {load : String → Handle}
    {supported : CompressedImageFormats} {ns2 : ℚ} {c2 : Cubemap} {reqs : List String}
    (h : cycle_cubemap_asset now ns cubemap load supported =
      CycleResult.ret ns2 c2 reqs) :
    c2 = cubemap ∨ c2.is_loaded = false := by
  unfold cycle_cubemap_asset at h
  split at h
  · cases h; exact Or.inl rfl
  · split at h
    · cases h; exact Or.inl rfl
    · split at h
      · cases h
      · split at h
        · cases h; exact Or.inl rfl
        · cases h; exact Or.inr rfl

/-- Shape of a non-panicking `asset_loaded` run: the `Cubemap` resource is
either unchanged or unchanged except for the loaded flag being set. -/
theorem asset_loaded_cubemap_cases {ls : LoadState} {w w2 : World}
    (hstep : asset_loaded ls w = some w2) :
    w2.cubemap = w.cubemap ∨ w2.cubemap = { w.cubemap with is_loaded := true } := by
  by_cases hg : w.cubemap.is_loaded = false ∧ ls = LoadState.Loaded
  · cases hlook : lookupImage w.images w.cubemap.image_handle with
    | none => simp [asset_loaded, hg.1, hg.2, hlook] at hstep
    | some image =>
      cases hre : reinterpret_step image with
      | none => simp [asset_loaded, hg.1, hg.2, hlook, hre] at hstep
      | some image2 =>
        by_cases hupd :
            (update_materials w.cubemap.image_handle w.entities w.materials.mats).2 = true
        · simp [asset_loaded, hg.1, hg.2, hlook, hre, hupd] at hstep
          exact Or.inr (by rw [← hstep])
        · simp [asset_loaded, hg.1, hg.2, hlook, hre, hupd] at hstep
          exact Or.inr (by rw [← hstep])
  · have heq : asset_loaded ls w = some w := by
      unfold asset_loaded
      rw [if_neg hg]
    rw [heq] at hstep
    cases hstep
    exact Or.inl rfl

/-- Any loaded successor state keeps the tracked image handle of its
predecessor: no step both installs a new handle and sets the loaded flag. -/
theorem machineStep_loaded_handle {s u : SysState} {a : SysInput}
    (hstep : machineStep s a = some u)
    (hl : u.world.cubemap.is_loaded = true) :
    u.world.cubemap.image_handle = s.world.cubemap.image_handle := by
  cases a with
  | cycleTick now supported load =>
    simp only [machineStep] at hstep
    cases hc : cycle_cubemap_asset now s.next_swap s.world.cubemap load supported with
    | ret ns c reqs =>
      rw [hc] at hstep
      cases hstep
      rcases cycle_ret_cases hc with h1 | h1
      · rw [h1]
      · rw [h1] at hl
        cases hl
    | panicked d =>
      rw [hc] at hstep
      cases hstep
  | pollTick query_load_state =>
    simp only [machineStep] at hstep
    cases hal : asset_loaded (query_load_state s.world.cubemap.image_handle) s.world with
    | none =>
      rw [hal] at hstep
      cases hstep
    | some w2 =>
      rw [hal] at hstep
      cases hstep
      rcases asset_loaded_cubemap_cases hal with h1 | h1 <;> rw [h1]
  | deliver h img =>
    simp only [machineStep] at hstep
    cases hstep
    rfl

/-- C7: the state machine never enters `Loaded` without first having been in
`Loading` for that specific request — along any reachable execution from the
startup state, a state with the loaded flag set is preceded (weakly) by a
state with the loaded flag clear and the same tracked image handle, and the
flag is only ever set by the completion poll, which leaves the handle
unchanged. -/
theorem c7_loading_precedes_loaded (load0 : String → Handle) (s : SysState)
    (hr : ReachableFrom (initState load0) s)
    (hl : s.world.cubemap.is_loaded = true) :
    ∃ m, ReachableFrom (initState load0) m ∧ ReachableFrom m s ∧
      m.world.cubemap.is_loaded = false ∧
      m.world.cubemap.image_handle = s.world.cubemap.image_handle := by
  induction hr with
  | refl => simp [initState, setup] at hl
  | tail a hprev hstep ih =>
    rename_i t u
    have hh := machineStep_loaded_handle hstep hl
    cases htb : t.world.cubemap.is_loaded with
    | false =>
      exact ⟨t, hprev, ReachableFrom.tail a (ReachableFrom.refl t) hstep, htb, hh.symm⟩
    | true =>
      obtain ⟨m, hm1, hm2, hm3, hm4⟩ := ih htb
      exact ⟨m, hm1, ReachableFrom.tail a hm2 hstep, hm3, hm4.trans hh.symm⟩

/-- Intermediate machine state for the C7 witness: the asset subsystem has
delivered the strip image under handle 7, nothing else has run. -/
def c7MidState : SysState :=
  { next_swap := 0,
    world := { images := [(7, stripImage)], entities := [],
               materials := { mats := [], next := 0 },
               cubemap := { is_loaded := false, index := 0, image_handle := 7 } } }

/-- Loaded machine state for the C7 witness: the completion poll ran, the
image was reinterpreted, one backdrop entity was spawned, and the loaded
flag is set. -/
def c7LoadedState : SysState :=
  { next_swap := 0,
    world := { images := [(7, cubeImage)], entities := [0],
               materials := { mats := [(0, { base_color_texture := some 7 })], next := 1 },
               cubemap := { is_loaded := true, index := 0, image_handle := 7 } } }

/-- Witness for C7: a concrete two-step run (deliver, then poll) reaching a
loaded state. -/
theorem c7_loading_precedes_loaded_witness :
    ∃ m, ReachableFrom (initState (fun _ => 7)) m ∧
      ReachableFrom m c7LoadedState ∧
      m.world.cubemap.is_loaded = false ∧
      m.world.cubemap.image_handle = c7LoadedState.world.cubemap.image_handle :=
  c7_loading_precedes_loaded (fun _ => 7) c7LoadedState
    (ReachableFrom.tail (SysInput.pollTick (fun _ => LoadState.Loaded))
      (show ReachableFrom (initState (fun _ => 7)) c7MidState from
        ReachableFrom.tail (SysInput.deliver 7 stripImage)
          (ReachableFrom.refl _) (by decide))
      (by decide))
    (by decide)

end Skybox

